import Mathlib

/-!
Verification of the task-management backend (sequential identifier
allocation, value-object validation, mapping pipeline, service layer).

Shallow embedding of:
- `src/Backend/src/utils/IdGenerator.ts` (createIdPattern, generateFirstId,
  generateNextId, extractSequenceNumber)
- `src/Backend/src/domain/Task/ValueObjects/TaskID.ts` (TaskID)
- `src/unnamed/part_001` (TaskTitle), `src/unnamed/part_002` (TaskStatus)
- `src/Backend/src/domain/Task/Entities/Task.ts` (Task aggregate)
- `src/unnamed/part_003` (TaskMapper: the version used by the live
  service/repository pipeline — it emits the `taskId` key consumed by the
  repository's queries)
- `src/unnamed/part_004` (TaskService)
- `src/unnamed/part_005` (TaskRepository over the document store)

Conventions: JS `Date` values are modelled as integer timestamps (a JS
`Date` is an object and objects are always truthy, so the source's
truthiness tests on date fields coincide with presence, modelled by
`Option`). Promise rejection / `throw` is modelled by `Except Thrown`.
The core `Result<T>` class (core/logic/Result.ts, which is not included
under src/) is modelled from the spec ("a uniform success/failure result
object carrying either a value or an error message", §4.5) as
`Except String`.
-/

deriving instance DecidableEq for Except

namespace TaskApp

/-- A loosely typed JavaScript runtime value, used where the source handles
`any`-typed data: the persisted `status` field (which the mapper coerces
with `Boolean(...)`) and the unchecked service inputs `title` / `taskId`. -/
inductive JSVal where
  | vUndefined
  | vNull
  | vBool (b : Bool)
  | vNum (n : Int)
  | vStr (s : String)
deriving DecidableEq

/-- JavaScript `Boolean(x)` truthiness coercion: `undefined`, `null`,
`false`, `0` and `""` are falsy, everything else truthy. -/
def JSVal.toBoolean : JSVal → Bool
  | .vUndefined => false
  | .vNull => false
  | .vBool b => b
  | .vNum n => n != 0
  | .vStr s => s != ""

/-- JavaScript `String.prototype.trim()`: strips whitespace characters from
both ends of the string (`Char.isWhitespace` covers the whitespace
characters relevant to this code base). -/
def jsTrim (s : String) : String :=
  ⟨((s.data.dropWhile Char.isWhitespace).reverse.dropWhile Char.isWhitespace).reverse⟩

/-- The regex character class `\d`: a decimal digit character, decided on
the character's code point (48–57). -/
def isDigitChar (c : Char) : Bool := 48 ≤ c.toNat && c.toNat ≤ 57

/-- Numeric value of a decimal digit character (one step of `parseInt`). -/
def digitVal (c : Char) : Nat := c.toNat - 48

/-- Consume the literal character sequence `pat` from the front of `s`
(the anchored literal part of a regex; `escapeForRegExp` in IdGenerator.ts
makes every prefix character a literal). Returns the rest of `s` on
success. -/
def stripLit : List Char → List Char → Option (List Char)
  | [], s => some s
  | _ :: _, [] => none
  | p :: ps, c :: cs => if c = p then stripLit ps cs else none

/-- Anchored match of the regex built by `createIdPattern(pfx)` in
IdGenerator.ts — `^<pfx>-(\d{3})$` — returning the three captured digit
characters of the group `(\d{3})`. -/
def idPatternMatch (pfx s : String) : Option (List Char) :=
  match stripLit (pfx.data ++ ['-']) s.data with
  | none => none
  | some r =>
    match r with
    | [d1, d2, d3] =>
      if isDigitChar d1 && isDigitChar d2 && isDigitChar d3 then some [d1, d2, d3] else none
    | _ => none

/-- `createIdPattern(pfx).test(s)` (IdGenerator.ts). -/
def createIdPatternTest (pfx s : String) : Bool := (idPatternMatch pfx s).isSome

/-- `parseInt(ds, 10)` on a captured digit string. -/
def parseIntDigits (ds : List Char) : Nat := ds.foldl (fun a c => 10 * a + digitVal c) 0

/-- `generateFirstId(prefix)` (IdGenerator.ts): the first identifier for the
given prefix (the source's default prefix `'T'` is passed explicitly at
every use site in this embedding). -/
def generateFirstId (pfx : String) : String := pfx ++ "-001"

/-- Decimal rendering of a natural number, as a fueled structural recursion
(models JavaScript `String(n)` for the nonnegative integers that reach it). -/
def natDigitsAux : Nat → Nat → List Char
  | 0, _ => []
  | fuel + 1, n =>
    if n < 10 then [Nat.digitChar n] else natDigitsAux fuel (n / 10) ++ [Nat.digitChar (n % 10)]

/-- JavaScript `String(n)` on a nonnegative number: its decimal rendering. -/
def jsNatString (n : Nat) : String := ⟨natDigitsAux (n + 1) n⟩

/-- JavaScript `s.padStart(3, '0')`. -/
def padStart3 (s : String) : String := ⟨List.replicate (3 - s.data.length) '0' ++ s.data⟩

/-- `generateNextId(maxSequence, prefix)` (IdGenerator.ts): computes
`maxSequence + 1`; throws `Error('ID sequence overflow: exceeds 999')` if
the result exceeds 999 (modelled as `Except.error` carrying the thrown
message); otherwise zero-pads to three digits. -/
def generateNextId (maxSequence : Nat) (pfx : String) : Except String String :=
  let next := maxSequence + 1
  if next > 999 then .error "ID sequence overflow: exceeds 999"
  else .ok (pfx ++ "-" ++ padStart3 (jsNatString next))

/-- `extractSequenceNumber(id, prefix)` (IdGenerator.ts): the parsed numeric
capture of `^<pfx>-(\d{3})$`, or none when the identifier does not match. -/
def extractSequenceNumber (id : String) (pfx : String) : Option Nat :=
  (idPatternMatch pfx id).map parseIntDigits

/-- Outcome of a guard check: a success flag and a failure message. -/
structure GuardResult where
  succeeded : Bool
  message : String

namespace Guard

/-- Modelled from the spec: `Guard.againstNullOrUndefined` lives in
core/logic/Guard.ts, which is not included under src/ (only its callers
are). Per spec §4.1 the value objects "fail with ValidationError if raw is
null/undefined" with a "null or undefined" message naming the argument;
`none` models a `null`/`undefined` argument. -/
def againstNullOrUndefined (arg : Option α) (argName : String) : GuardResult :=
  match arg with
  | none => ⟨false, argName ++ " is null or undefined"⟩
  | some _ => ⟨true, ""⟩

/-- Modelled from the spec: `Guard.againstNullOrUndefinedBulk`
(core/logic/Guard.ts, not under src/) checks each (argument, argumentName)
pair in order and returns the first failure, success otherwise. -/
def againstNullOrUndefinedBulk : List (Option Unit × String) → GuardResult
  | [] => ⟨true, ""⟩
  | (a, n) :: rest =>
    let r := againstNullOrUndefined a n
    if r.succeeded then againstNullOrUndefinedBulk rest else r

end Guard

/-- Value object for a task title (src/unnamed/part_001). -/
structure TaskTitle where
  value : String
deriving DecidableEq

/-- `TaskTitle.create(value)` (src/unnamed/part_001): guards against
null/undefined, trims, rejects an empty-after-trim string, stores the
trimmed value. -/
def TaskTitle.create (value : Option String) : Except String TaskTitle :=
  let guardResult := Guard.againstNullOrUndefined value "TaskTitle"
  match value with
  | none => .error guardResult.message
  | some v =>
    let trimmed := jsTrim v
    if trimmed.length = 0 then .error "Task title cannot be empty"
    else .ok ⟨trimmed⟩

/-- Value object for a task status flag (src/unnamed/part_002). -/
structure TaskStatus where
  value : Bool
deriving DecidableEq

/-- `TaskStatus.create(value)` (src/unnamed/part_002): guards against
null/undefined and wraps the boolean as-is. -/
def TaskStatus.create (value : Option Bool) : Except String TaskStatus :=
  let guardResult := Guard.againstNullOrUndefined value "TaskStatus"
  match value with
  | none => .error guardResult.message
  | some v => .ok ⟨v⟩

/-- Typed identifier for Task (TaskID.ts). `value` is the canonical string:
the trimmed input, wrapped as a `UniqueEntityID` in the source;
`taskId.id.toString()` returns exactly this string. -/
structure TaskID where
  value : String
deriving DecidableEq

/-- `TaskID.create(id)` (TaskID.ts): guards against null/undefined with
argument name `'taskId'`, trims the input, tests it against
`createIdPattern()` (default prefix `'T'`), and wraps the trimmed string. -/
def TaskID.create (id : Option String) : Except String TaskID :=
  let guardResult := Guard.againstNullOrUndefined id "taskId"
  match id with
  | none => .error guardResult.message
  | some s =>
    let trimmed := jsTrim s
    if createIdPatternTest "T" trimmed then .ok ⟨trimmed⟩
    else .error "incidentTypeId must match pattern T-INC###"

/-- The Task aggregate root (Task.ts): one identifier, one title, one
status, one creation timestamp. The entity's hidden surrogate
`UniqueEntityID` is not modelled: no mapper output, DTO or persistence
record observes it. -/
structure Task where
  taskId : TaskID
  title : TaskTitle
  status : TaskStatus
  DateCreated : Int
deriving DecidableEq

/-- The argument record of `Task.create` (Task.ts): taskId and title accept
either a pre-validated value object or a raw string (`TaskID | string`,
`TaskTitle | string`, modelled as a sum); status is optional in the
TypeScript type; every field can be `null`/`undefined` at runtime
(modelled by `Option`). -/
structure TaskCreateProps where
  taskId : Option (TaskID ⊕ String)
  title : Option (TaskTitle ⊕ String)
  status : Option TaskStatus
  DateCreated : Option Int

/-- `Task.create(props)` (Task.ts). The source first runs
`Guard.againstNullOrUndefinedBulk` over `[taskId, title, status]` — note
that the optional `status` is included — then coerces a raw title, then a
raw taskId, then applies `props.status || TaskStatus.create(false)` and
`props.DateCreated || new Date()` (`now` models `new Date()`). The three
null-failure arms below return exactly the bulk guard's first-failure
message (lemma `task_create_null_guard`); in the fourth arm the guard has
succeeded, so the status default `TaskStatus.create(false)` is dead code
there, `status` being present and truthy. -/
def Task.create (props : TaskCreateProps) (now : Int) : Except String Task :=
  match props.taskId, props.title, props.status with
  | none, _, _ => .error "taskId is null or undefined"
  | some _, none, _ => .error "title is null or undefined"
  | some _, some _, none => .error "status is null or undefined"
  | some tid, some ttl, some st =>
    let titleStep : Except String TaskTitle :=
      match ttl with
      | .inr rawTitle => TaskTitle.create (some rawTitle)
      | .inl vo => .ok vo
    match titleStep with
    | .error e => .error e
    | .ok titleVo =>
      let idStep : Except String TaskID :=
        match tid with
        | .inr rawId => TaskID.create (some rawId)
        | .inl vo => .ok vo
      match idStep with
      | .error e => .error e
      | .ok taskIdVo => .ok ⟨taskIdVo, titleVo, st, props.DateCreated.getD now⟩

/-- A raw persisted task document, as handed to the mapper (`any` in the
source; fields per the persistence schema TaskSchema.ts: `taskId` and
`title` are strings, `status` a boolean — but read back through
`Boolean(...)` coercion, so modelled as an arbitrary `JSVal` — and the
date fields are `Date` values). The legacy `DateCreated` field tolerated
by the mapper is included. The Mongo `_id` is not modelled: it only feeds
the entity's unobserved surrogate id. -/
structure RawTask where
  taskId : Option String
  title : Option String
  status : JSVal
  dateCreated : Option Int
  DateCreated : Option Int
deriving DecidableEq

/-- The transport DTO (ITaskDTO). The source renders `dateCreated` as an
ISO-8601 string via `toISOString()`, an injective formatting of the
timestamp; the timestamp itself is kept here, its string rendering playing
no role in any claim. -/
structure ITaskDTO where
  id : String
  title : String
  status : Bool
  dateCreated : Int
deriving DecidableEq

namespace TaskMapper

/-- `TaskMapper.toDomain(raw)` (src/unnamed/part_003): null-checks the
record, validates taskId and then title through their factories, coerces
the status with `Boolean(raw.status)` before `TaskStatus.create`, reads
`raw.dateCreated ?? raw.DateCreated` falling back to `new Date()`
(modelled by `now`), and assembles the Task via `Task.create`; any failure
yields `none`. -/
def toDomain (raw : Option RawTask) (now : Int) : Option Task :=
  match raw with
  | none => none
  | some r =>
    match TaskID.create r.taskId with
    | .error _ => none
    | .ok taskIdVo =>
      match TaskTitle.create r.title with
      | .error _ => none
      | .ok titleVo =>
        match TaskStatus.create (some r.status.toBoolean) with
        | .error _ => none
        | .ok statusVo =>
          let dateCreatedRaw := r.dateCreated.orElse fun _ => r.DateCreated
          let dateCreated := dateCreatedRaw.getD now
          match
            Task.create ⟨some (.inl taskIdVo), some (.inl titleVo), some statusVo, some dateCreated⟩ now
          with
          | .error _ => none
          | .ok t => some t

/-- `TaskMapper.toPersistence(task)` (src/unnamed/part_003): projects the
four fields into the persistence record keyed by `taskId`. The persistence
shape has no legacy `DateCreated` field, hence `none` here. -/
def toPersistence (task : Task) : RawTask :=
  { taskId := some task.taskId.value
    title := some task.title.value
    status := .vBool task.status.value
    dateCreated := some task.DateCreated
    DateCreated := none }

/-- `TaskMapper.toDTO(task)` (src/unnamed/part_003). -/
def toDTO (task : Task) : ITaskDTO :=
  ⟨task.taskId.value, task.title.value, task.status.value, task.DateCreated⟩

end TaskMapper

/-- A value thrown (or used to reject a promise) by the repository layer:
either an `Error` object carrying a message, or some non-Error shape (for
which `e instanceof Error` is false). -/
inductive Thrown where
  | errObj (msg : String)
  | nonError
deriving DecidableEq

/-- The service's catch wrapper:
`try { body } catch (e) { return Result.fail(e instanceof Error ? e.message : generic) }`. -/
def tryCatch (body : Except Thrown (Except String α)) (generic : String) : Except String α :=
  match body with
  | .ok r => r
  | .error (.errObj m) => .error m
  | .error .nonError => .error generic

namespace TaskService

/-- The string arm of `TaskService.validateTitle` (src/unnamed/part_004):
empty-after-trim check, then `TaskTitle.create`. -/
def validateTitleStr (title : String) : Except String Unit :=
  if (jsTrim title).length = 0 then .error "title is required"
  else
    match TaskTitle.create (some title) with
    | .error e => .error e
    | .ok _ => .ok ()

/-- `TaskService.validateTitle(title)` (src/unnamed/part_004): rejects
non-string input first. -/
def validateTitle (title : JSVal) : Except String Unit :=
  match title with
  | .vStr s => validateTitleStr s
  | _ => .error "title must be a string"

/-- The string arm of `TaskService.validateTaskId` (src/unnamed/part_004):
empty-after-trim check, then `TaskID.create`. -/
def validateTaskIdStr (taskId : String) : Except String Unit :=
  if (jsTrim taskId).length = 0 then .error "taskId is required"
  else
    match TaskID.create (some taskId) with
    | .error e => .error e
    | .ok _ => .ok ()

/-- `TaskService.validateTaskId(taskId)` (src/unnamed/part_004): rejects
non-string input first. -/
def validateTaskId (taskId : JSVal) : Except String Unit :=
  match taskId with
  | .vStr s => validateTaskIdStr s
  | _ => .error "taskId must be a string"

/-- `TaskService.generateTaskId` (src/unnamed/part_004): loads all tasks
(`findAllRes` is the outcome of `taskRepo.findAll()` — a value or a
rejection), extracts each identifier's sequence number ignoring the ones
that fail to parse, reduces with `max` starting at 0, then allocates via
`generateFirstId` / `generateNextId` (whose overflow is a thrown Error). -/
def generateTaskId (findAllRes : Except Thrown (List Task)) : Except Thrown String :=
  match findAllRes with
  | .error e => .error e
  | .ok all =>
    let maxSeq := ((all.map fun t => extractSequenceNumber t.taskId.value "T").filterMap id).foldl max 0
    if maxSeq = 0 then .ok (generateFirstId "T")
    else
      match generateNextId maxSeq "T" with
      | .error m => .error (.errObj m)
      | .ok s => .ok s

/-- `TaskService.listTasks()` (src/unnamed/part_004): fetch all, map each
to its DTO; repository rejections are caught and converted. -/
def listTasks (findAllRes : Except Thrown (List Task)) : Except String (List ITaskDTO) :=
  tryCatch
    (match findAllRes with
     | .error e => .error e
     | .ok tasks => .ok (.ok (tasks.map TaskMapper.toDTO)))
    "Error listing tasks"

/-- The try-block of `TaskService.createTask` for a string title
(src/unnamed/part_004): validate, re-create the title value object,
allocate the identifier, build the Task — note that `status` is omitted
from the `Task.create` props — and save. `saveRes` is the behaviour of
`taskRepo.save`. -/
def createTaskBodyStr (findAllRes : Except Thrown (List Task)) (saveRes : Task → Except Thrown Task)
    (title : String) (now : Int) : Except Thrown (Except String ITaskDTO) :=
  match validateTitleStr title with
  | .error m => .ok (.error m)
  | .ok _ =>
    match TaskTitle.create (some title) with
    | .error e => .ok (.error e)
    | .ok titleVo =>
      match generateTaskId findAllRes with
      | .error e => .error e
      | .ok newId =>
        match TaskID.create (some newId) with
        | .error e => .ok (.error e)
        | .ok taskIdVo =>
          match Task.create ⟨some (.inl taskIdVo), some (.inl titleVo), none, some now⟩ now with
          | .error e => .ok (.error e)
          | .ok task =>
            match saveRes task with
            | .error e => .error e
            | .ok saved => .ok (.ok (TaskMapper.toDTO saved))

/-- `TaskService.createTask(title)` (src/unnamed/part_004): a non-string
title fails validation before anything else; thrown repository errors are
caught and converted. -/
def createTask (findAllRes : Except Thrown (List Task)) (saveRes : Task → Except Thrown Task)
    (title : JSVal) (now : Int) : Except String ITaskDTO :=
  tryCatch
    (match title with
     | .vStr s => createTaskBodyStr findAllRes saveRes s now
     | _ => .ok (.error "title must be a string"))
    "Error creating task"

/-- `TaskService.toggleTaskStatus(taskId)` (src/unnamed/part_004):
validates the id, then forwards the ORIGINAL (untrimmed) string to
`taskRepo.toggleStatus` (`toggleRes`); a `null` repository answer becomes
the failure "Task not found". -/
def toggleTaskStatus (toggleRes : String → Except Thrown (Option Task)) (taskId : JSVal) :
    Except String ITaskDTO :=
  tryCatch
    (match taskId with
     | .vStr s =>
       match validateTaskIdStr s with
       | .error m => .ok (.error m)
       | .ok _ =>
         match toggleRes s with
         | .error e => .error e
         | .ok none => .ok (.error "Task not found")
         | .ok (some updated) => .ok (.ok (TaskMapper.toDTO updated))
     | _ => .ok (.error "taskId must be a string"))
    "Error toggling task status"

/-- `TaskService.deleteTask(taskId)` (src/unnamed/part_004): validates the
id, forwards the original string to `taskRepo.delete` (`deleteRes`);
`false` becomes "Task not found", `true` becomes success with value
`true`. -/
def deleteTask (deleteRes : String → Except Thrown Bool) (taskId : JSVal) : Except String Bool :=
  tryCatch
    (match taskId with
     | .vStr s =>
       match validateTaskIdStr s with
       | .error m => .ok (.error m)
       | .ok _ =>
         match deleteRes s with
         | .error e => .error e
         | .ok false => .ok (.error "Task not found")
         | .ok true => .ok (.ok true)
     | _ => .ok (.error "taskId must be a string"))
    "Error deleting task"

end TaskService

namespace TaskRepository

/-- `TaskRepository.findAll()` (src/unnamed/part_005): maps every fetched
document through `TaskMapper.toDomain` and keeps the non-null results.
`docs` is the list the store's `find({})` returns (the store's
`sort({dateCreated:-1})` happens inside the collaborator and is not
modelled — no claim concerns the order). -/
def findAll (docs : List RawTask) (now : Int) : List Task :=
  ((docs.map fun d => TaskMapper.toDomain (some d) now).filterMap id)

/-- The store's `findOne({ taskId })`: first document whose `taskId` field
equals the given string exactly. -/
def findOneDoc (taskId : String) (docs : List RawTask) : Option RawTask :=
  docs.find? fun r => r.taskId == some taskId

/-- `TaskRepository.toggleStatus(taskId)` (src/unnamed/part_005): reads the
current document by exact `taskId` match; if none, `null`; otherwise
writes `status := !Boolean(current.status)` and returns the updated
document mapped to the domain. (The store write-back is the collaborator's
side effect; the value returned to the service is what is modelled.) -/
def toggleStatus (taskId : String) (docs : List RawTask) (now : Int) : Option Task :=
  match findOneDoc taskId docs with
  | none => none
  | some current =>
    let updated : RawTask := { current with status := .vBool (!current.status.toBoolean) }
    TaskMapper.toDomain (some updated) now

/-- `TaskRepository.delete(taskId)` (src/unnamed/part_005):
`deleteOne({ taskId })`, true iff a document matched (deletedCount > 0). -/
def delete (taskId : String) (docs : List RawTask) : Bool :=
  docs.any fun r => r.taskId == some taskId

/-- `TaskRepository.save(task)` (src/unnamed/part_005): upsert keyed by the
persisted `taskId` — `$set` of title/status/dateCreated on a match,
insert of the full record otherwise — then re-map the post-write document
to the domain, rejecting with `Error('Failed to map persisted task to
domain')` when that is impossible. -/
def save (task : Task) (docs : List RawTask) (now : Int) : Except Thrown Task :=
  let raw := TaskMapper.toPersistence task
  let updatedDoc : RawTask :=
    match findOneDoc task.taskId.value docs with
    | some cur => { cur with title := raw.title, status := raw.status, dateCreated := raw.dateCreated }
    | none => raw
  match TaskMapper.toDomain (some updatedDoc) now with
  | none => .error (.errObj "Failed to map persisted task to domain")
  | some t => .ok t

end TaskRepository

/-! ### Helper lemmas -/

theorem string_ext {a b : String} (h : a.data = b.data) : a = b := by
  cases a; cases b; exact congrArg String.mk h

theorem stripLit_append (p r : List Char) : stripLit p (p ++ r) = some r := by
  induction p with
  | nil => rfl
  | cons c cs ih => simp [stripLit, ih]

theorem stripLit_eq_some {p : List Char} :
    ∀ {s r : List Char}, stripLit p s = some r → s = p ++ r := by
  induction p with
  | nil => intro s r h; simp [stripLit] at h; simpa using h
  | cons c cs ih =>
    intro s r h
    cases s with
    | nil => simp [stripLit] at h
    | cons x xs =>
      simp only [stripLit] at h
      by_cases hx : x = c
      · subst hx
        simp only [if_pos rfl] at h
        simpa using ih h
      · simp [hx] at h

theorem idPatternMatch_intro (pfx : String) {s : String} {d1 d2 d3 : Char}
    (hd1 : isDigitChar d1 = true) (hd2 : isDigitChar d2 = true) (hd3 : isDigitChar d3 = true)
    (hs : s.data = pfx.data ++ '-' :: [d1, d2, d3]) :
    idPatternMatch pfx s = some [d1, d2, d3] := by
  have hs2 : s.data = (pfx.data ++ ['-']) ++ [d1, d2, d3] := by simpa using hs
  unfold idPatternMatch
  rw [hs2, stripLit_append]
  simp [hd1, hd2, hd3]

theorem idPatternMatch_elim {pfx s : String} {ds : List Char}
    (h : idPatternMatch pfx s = some ds) :
    ∃ d1 d2 d3, ds = [d1, d2, d3] ∧ isDigitChar d1 = true ∧ isDigitChar d2 = true ∧
      isDigitChar d3 = true ∧ s.data = pfx.data ++ '-' :: [d1, d2, d3] := by
  unfold idPatternMatch at h
  cases hstrip : stripLit (pfx.data ++ ['-']) s.data with
  | none => rw [hstrip] at h; simp at h
  | some r =>
    rw [hstrip] at h
    have hsdata : s.data = (pfx.data ++ ['-']) ++ r := stripLit_eq_some hstrip
    cases r with
    | nil => simp at h
    | cons a as =>
      cases as with
      | nil => simp at h
      | cons b bs =>
        cases bs with
        | nil => simp at h
        | cons c3 cs =>
          cases cs with
          | cons d4 es => simp at h
          | nil =>
            by_cases hd : (isDigitChar a && isDigitChar b && isDigitChar c3) = true
            · simp only [hd, if_pos] at h
              obtain ⟨⟨h1, h2⟩, h3⟩ : (isDigitChar a = true ∧ isDigitChar b = true) ∧
                  isDigitChar c3 = true := by simpa [Bool.and_eq_true] using hd
              exact ⟨a, b, c3, (Option.some.inj h).symm, h1, h2, h3, by simpa using hsdata⟩
            · simp [hd] at h

theorem digitChar_isDigitChar {d : Nat} (h : d < 10) : isDigitChar (Nat.digitChar d) = true := by
  interval_cases d <;> decide

theorem digitVal_digitChar {d : Nat} (h : d < 10) : digitVal (Nat.digitChar d) = d := by
  interval_cases d <;> decide

theorem digitVal_le_of_isDigitChar {c : Char} (h : isDigitChar c = true) : digitVal c ≤ 9 := by
  simp [isDigitChar] at h
  simp [digitVal]
  omega

theorem not_whitespace_of_isDigitChar {c : Char} (h : isDigitChar c = true) :
    c.isWhitespace = false := by
  simp [isDigitChar] at h
  by_contra hw
  rw [Bool.not_eq_false] at hw
  simp only [Char.isWhitespace, Bool.or_eq_true, decide_eq_true_eq] at hw
  rcases hw with ((h1 | h1) | h1) | h1 <;> subst h1 <;> revert h <;> decide

theorem natDigitsAux_eq_single {fuel n : Nat} (hf : n < fuel) (h : n < 10) :
    natDigitsAux fuel n = [Nat.digitChar n] := by
  cases fuel with
  | zero => omega
  | succ f => simp [natDigitsAux, h]

theorem natDigitsAux_eq_two {fuel n : Nat} (hf : n < fuel) (h1 : 10 ≤ n) (h2 : n < 100) :
    natDigitsAux fuel n = [Nat.digitChar (n / 10), Nat.digitChar (n % 10)] := by
  cases fuel with
  | zero => omega
  | succ f =>
    have hn : ¬ n < 10 := by omega
    have h10 : n / 10 < 10 := by omega
    have hf2 : n / 10 < f := by omega
    simp [natDigitsAux, hn, natDigitsAux_eq_single hf2 h10]

theorem natDigitsAux_eq_three {fuel n : Nat} (hf : n < fuel) (h1 : 100 ≤ n) (h2 : n < 1000) :
    natDigitsAux fuel n =
      [Nat.digitChar (n / 100), Nat.digitChar (n / 10 % 10), Nat.digitChar (n % 10)] := by
  cases fuel with
  | zero => omega
  | succ f =>
    have hn : ¬ n < 10 := by omega
    have ha : 10 ≤ n / 10 := by omega
    have hb : n / 10 < 100 := by omega
    have hf2 : n / 10 < f := by omega
    simp [natDigitsAux, hn, natDigitsAux_eq_two hf2 ha hb, Nat.div_div_eq_div_mul]

theorem padStart3_jsNatString_data {n : Nat} (h1 : 1 ≤ n) (h2 : n ≤ 999) :
    (padStart3 (jsNatString n)).data =
      [Nat.digitChar (n / 100), Nat.digitChar (n / 10 % 10), Nat.digitChar (n % 10)] := by
  unfold padStart3 jsNatString
  by_cases ha : n < 10
  · rw [natDigitsAux_eq_single (by omega) ha]
    have e1 : n / 100 = 0 := by omega
    have e2 : n / 10 % 10 = 0 := by omega
    have e3 : n % 10 = n := by omega
    simp [e1, e2, e3, List.replicate]
    decide
  · by_cases hb : n < 100
    · rw [natDigitsAux_eq_two (by omega) (by omega) hb]
      have e1 : n / 100 = 0 := by omega
      have e2 : n / 10 % 10 = n / 10 := by omega
      simp [e1, e2, List.replicate]
      decide
    · rw [natDigitsAux_eq_three (by omega) (by omega) (by omega)]
      simp

theorem parseIntDigits_digits {n : Nat} (h2 : n ≤ 999) :
    parseIntDigits [Nat.digitChar (n / 100), Nat.digitChar (n / 10 % 10), Nat.digitChar (n % 10)]
      = n := by
  have v1 := digitVal_digitChar (d := n / 100) (by omega)
  have v2 := digitVal_digitChar (d := n / 10 % 10) (by omega)
  have v3 := digitVal_digitChar (d := n % 10) (by omega)
  simp [parseIntDigits, v1, v2, v3]
  omega

theorem parseIntDigits_le_999 {d1 d2 d3 : Char} (h1 : isDigitChar d1 = true)
    (h2 : isDigitChar d2 = true) (h3 : isDigitChar d3 = true) :
    parseIntDigits [d1, d2, d3] ≤ 999 := by
  have v1 := digitVal_le_of_isDigitChar h1
  have v2 := digitVal_le_of_isDigitChar h2
  have v3 := digitVal_le_of_isDigitChar h3
  simp [parseIntDigits]
  omega

theorem jsTrim_eq_self_of_test {s : String} (h : createIdPatternTest "T" s = true) :
    jsTrim s = s := by
  obtain ⟨ds, hds⟩ : ∃ ds, idPatternMatch "T" s = some ds := by
    simpa [createIdPatternTest, Option.isSome_iff_exists] using h
  obtain ⟨d1, d2, d3, _, hd1, hd2, hd3, hdata⟩ := idPatternMatch_elim hds
  apply string_ext
  show ((s.data.dropWhile Char.isWhitespace).reverse.dropWhile Char.isWhitespace).reverse = s.data
  rw [hdata]
  simp [List.dropWhile, not_whitespace_of_isDigitChar hd3]

theorem TaskID_create_some_eq (s : String) :
    TaskID.create (some s) =
      if createIdPatternTest "T" (jsTrim s) then .ok ⟨jsTrim s⟩
      else .error "incidentTypeId must match pattern T-INC###" := rfl

theorem TaskTitle_create_some_eq (s : String) :
    TaskTitle.create (some s) =
      if (jsTrim s).length = 0 then .error "Task title cannot be empty" else .ok ⟨jsTrim s⟩ := rfl

theorem TaskStatus_create_some_eq (b : Bool) : TaskStatus.create (some b) = .ok ⟨b⟩ := rfl

theorem Task.create_all_some (tid : TaskID) (ttl : TaskTitle) (st : TaskStatus)
    (d : Option Int) (now : Int) :
    Task.create ⟨some (.inl tid), some (.inl ttl), some st, d⟩ now =
      .ok ⟨tid, ttl, st, d.getD now⟩ := rfl

/-- The three null-failure arms of `Task.create` return exactly the message
of `Guard.againstNullOrUndefinedBulk` over `[taskId, title, status]`, as in
the source. -/
theorem task_create_null_guard (props : TaskCreateProps) (now : Int)
    (h : props.taskId = none ∨ props.title = none ∨ props.status = none) :
    Task.create props now =
      .error (Guard.againstNullOrUndefinedBulk
        [(props.taskId.map fun _ => (), "taskId"), (props.title.map fun _ => (), "title"),
         (props.status.map fun _ => (), "status")]).message := by
  obtain ⟨tid, ttl, st, d⟩ := props
  rcases tid with _ | tid <;> rcases ttl with _ | ttl <;> rcases st with _ | st <;>
    simp_all [Task.create, Guard.againstNullOrUndefinedBulk, Guard.againstNullOrUndefined]

theorem foldl_max_le {l : List Nat} {N : Nat} :
    ∀ {acc : Nat}, acc ≤ N → (∀ k ∈ l, k ≤ N) → l.foldl max acc ≤ N := by
  induction l with
  | nil => intro acc ha _; simpa using ha
  | cons x xs ih =>
    intro acc ha h
    have hx : x ≤ N := h x (by simp)
    exact ih (by simp [ha, hx]) fun k hk => h k (by simp [hk])

theorem acc_le_foldl_max (l : List Nat) : ∀ a : Nat, a ≤ l.foldl max a := by
  induction l with
  | nil => intro a; simp
  | cons x xs ih =>
    intro a
    simp only [List.foldl_cons]
    calc a ≤ max a x := by omega
      _ ≤ xs.foldl max (max a x) := ih (max a x)

theorem le_foldl_max {l : List Nat} : ∀ {a k : Nat}, k ∈ l → k ≤ l.foldl max a := by
  induction l with
  | nil => intro a k h; simp at h
  | cons x xs ih =>
    intro a k h
    simp only [List.foldl_cons]
    rcases List.mem_cons.mp h with rfl | hmem
    · calc k ≤ max a k := by omega
        _ ≤ xs.foldl max (max a k) := acc_le_foldl_max xs (max a k)
    · exact ih hmem

theorem foldl_max_acc_or_mem {l : List Nat} :
    ∀ {a : Nat}, l.foldl max a = a ∨ l.foldl max a ∈ l := by
  induction l with
  | nil => intro a; simp
  | cons x xs ih =>
    intro a
    rcases @ih (max a x) with h | h
    · by_cases hax : x ≤ a
      · left; simpa [Nat.max_eq_left hax] using h
      · right; simp only [List.foldl_cons]; rw [h]; simp; omega
    · right; simp only [List.foldl_cons]; exact List.mem_cons_of_mem _ h

/-! ### Claims -/

theorem generateTaskId_ok_unfold (tasks : List Task) :
    TaskService.generateTaskId (.ok tasks) =
      (if ((tasks.map fun t => extractSequenceNumber t.taskId.value "T").filterMap id).foldl max 0
            = 0
       then .ok (generateFirstId "T")
       else
        match
          generateNextId
            (((tasks.map fun t => extractSequenceNumber t.taskId.value "T").filterMap id).foldl
              max 0) "T"
        with
        | .error m => .error (.errObj m)
        | .ok s => .ok s) := rfl

theorem generateTaskId_formula (tasks : List Task)
    (hbound : ∀ k ∈ (tasks.map fun t => extractSequenceNumber t.taskId.value "T").filterMap id,
      k ≤ 998) :
    TaskService.generateTaskId (.ok tasks) =
      .ok ("T" ++ "-" ++ padStart3 (jsNatString
        (((tasks.map fun t => extractSequenceNumber t.taskId.value "T").filterMap id).foldl
          max 0 + 1))) := by
  rw [generateTaskId_ok_unfold]
  generalize hl : (tasks.map fun t => extractSequenceNumber t.taskId.value "T").filterMap id = l
    at hbound ⊢
  by_cases h0 : l.foldl max 0 = 0
  · rw [if_pos h0, h0]
    decide
  · rw [if_neg h0]
    have hle : l.foldl max 0 ≤ 998 := foldl_max_le (by omega) hbound
    have hov : ¬ 999 < l.foldl max 0 + 1 := by omega
    simp [generateNextId, hov]

set_option maxHeartbeats 800000 in
/-- C1: the identifier allocation policy of `createTask` (through
`TaskService.generateTaskId`) is gap-preserving and monotonic: it extracts
each identifier's sequence number (ignoring identifiers that fail to
parse), takes the maximum `m` (0 if none), and allocates the id of `m + 1`;
in particular an empty store yields `T-001`, and a store holding `T-001`
and `T-003` yields `T-004` (the gap at `T-002` is never filled). -/
theorem claim1_allocation_policy :
    (∀ tasks : List Task,
      (∀ k ∈ (tasks.map fun t => extractSequenceNumber t.taskId.value "T").filterMap id,
        k ≤ 998) →
      ∃ m, TaskService.generateTaskId (.ok tasks) =
          .ok ("T" ++ "-" ++ padStart3 (jsNatString (m + 1))) ∧
        (∀ k ∈ (tasks.map fun t => extractSequenceNumber t.taskId.value "T").filterMap id,
          k ≤ m) ∧
        (m = 0 ∨
          m ∈ (tasks.map fun t => extractSequenceNumber t.taskId.value "T").filterMap id)) ∧
    TaskService.generateTaskId (.ok []) = .ok "T-001" ∧
    TaskService.generateTaskId
        (.ok [⟨⟨"T-001"⟩, ⟨"X"⟩, ⟨false⟩, 0⟩, ⟨⟨"T-003"⟩, ⟨"Y"⟩, ⟨false⟩, 0⟩]) =
      .ok "T-004" := by
  have h2 : TaskService.generateTaskId (.ok []) = .ok "T-001" := by decide
  have h3 : TaskService.generateTaskId
      (.ok [⟨⟨"T-001"⟩, ⟨"X"⟩, ⟨false⟩, 0⟩, ⟨⟨"T-003"⟩, ⟨"Y"⟩, ⟨false⟩, 0⟩]) = .ok "T-004" := by
    decide
  refine ⟨?_, h2, h3⟩
  intro tasks hbound
  refine ⟨((tasks.map fun t => extractSequenceNumber t.taskId.value "T").filterMap id).foldl
    max 0, ?_, ?_, ?_⟩
  · exact generateTaskId_formula tasks hbound
  · exact fun k hk => le_foldl_max hk
  · exact foldl_max_acc_or_mem

/-- Witness for C1: the quantified part applied to the one-task store
`T-007` (the allocation is `T-008`). -/
theorem claim1_witness :
    ∃ m, TaskService.generateTaskId (.ok [(⟨⟨"T-007"⟩, ⟨"Z"⟩, ⟨true⟩, 0⟩ : Task)]) =
        .ok ("T" ++ "-" ++ padStart3 (jsNatString (m + 1))) ∧
      (∀ k ∈ (([(⟨⟨"T-007"⟩, ⟨"Z"⟩, ⟨true⟩, 0⟩ : Task)].map
          fun t => extractSequenceNumber t.taskId.value "T").filterMap id), k ≤ m) ∧
      (m = 0 ∨ m ∈ (([(⟨⟨"T-007"⟩, ⟨"Z"⟩, ⟨true⟩, 0⟩ : Task)].map
          fun t => extractSequenceNumber t.taskId.value "T").filterMap id)) :=
  claim1_allocation_policy.1 [⟨⟨"T-007"⟩, ⟨"Z"⟩, ⟨true⟩, 0⟩] (by decide)

/-- C2: `generateNextId(maxSequence, P)` computes `maxSequence + 1` and
fails with the `OverflowError` ("ID sequence overflow") if and only if the
result exceeds 999; otherwise it returns the prefix followed by the
zero-padded 3-digit next sequence, so that for every prefix `P` and every
`n` in `[1, 999]`, `extractSequenceNumber (generateNextId (n-1) P) P = n`,
and `generateNextId 0 P = generateFirstId P`. -/
theorem claim2_generateNextId_spec :
    (∀ (P : String) (n : Nat), (∃ e, generateNextId n P = .error e) ↔ 999 < n + 1) ∧
    (∀ (P : String) (n : Nat), 999 < n + 1 →
      generateNextId n P = .error "ID sequence overflow: exceeds 999") ∧
    (∀ (P : String) (n : Nat), n + 1 ≤ 999 →
      generateNextId n P = .ok (P ++ "-" ++ padStart3 (jsNatString (n + 1)))) ∧
    (∀ (P : String) (n : Nat), 1 ≤ n → n ≤ 999 →
      ∃ s, generateNextId (n - 1) P = .ok s ∧ extractSequenceNumber s P = some n) ∧
    (∀ P : String, generateNextId 0 P = .ok (generateFirstId P)) := by
  refine ⟨?_, ?_, ?_, ?_, ?_⟩
  · intro P n
    by_cases h : 999 < n + 1 <;> simp [generateNextId, h]
  · intro P n h
    simp [generateNextId, h]
  · intro P n h
    have h2 : ¬ 999 < n + 1 := by omega
    simp [generateNextId, h2]
  · intro P n hn1 hn999
    have he : n - 1 + 1 = n := by omega
    have hov : ¬ 999 < n - 1 + 1 := by omega
    refine ⟨P ++ "-" ++ padStart3 (jsNatString n), ?_, ?_⟩
    · simp [generateNextId, he, hov]
      omega
    · have hpd := padStart3_jsNatString_data hn1 hn999
      have hm := idPatternMatch_intro P
        (digitChar_isDigitChar (d := n / 100) (by omega))
        (digitChar_isDigitChar (d := n / 10 % 10) (by omega))
        (digitChar_isDigitChar (d := n % 10) (by omega))
        (s := P ++ "-" ++ padStart3 (jsNatString n))
        (by simp [String.data_append, hpd])
      simp [extractSequenceNumber, hm, parseIntDigits_digits hn999]
  · intro P
    have hov : ¬ 999 < 0 + 1 := by omega
    simp only [generateNextId, hov, if_false]
    have hpad : padStart3 (jsNatString (0 + 1)) = "001" := by decide
    have hdash : ("-" : String) ++ "001" = "-001" := by decide
    rw [hpad, generateFirstId, String.append_assoc, hdash]

/-- Witness for C2: concrete instances of the quantified parts — the
overflow case at 999, the round-trip at n = 42, and the first-id equation
at prefix "T". -/
theorem claim2_witness :
    generateNextId 999 "T" = .error "ID sequence overflow: exceeds 999" ∧
    (∃ s, generateNextId (42 - 1) "T" = .ok s ∧ extractSequenceNumber s "T" = some 42) ∧
    generateNextId 0 "T" = .ok (generateFirstId "T") :=
  ⟨claim2_generateNextId_spec.2.1 "T" 999 (by omega),
   claim2_generateNextId_spec.2.2.2.1 "T" 42 (by omega) (by omega),
   claim2_generateNextId_spec.2.2.2.2 "T"⟩

/-- C3 (code bug in the source): `Task.create` includes the optional
`status` property in the null/undefined bulk guard, so omitting the status
makes creation fail with "status is null or undefined" instead of
defaulting to `false` via `Status.create(false)` — contradicting the
repository's own test "should create a valid Task without status (defaults
to false)" (Task.spec.ts) and spec §4.3; consequently `createTask` (which
omits `status` from the props) fails even for a valid title over an empty
store, instead of producing `T-001` with status `false`. -/
theorem claim3_status_guard_bug :
    (∀ (props : TaskCreateProps) (now : Int), props.taskId ≠ none → props.title ≠ none →
      props.status = none → Task.create props now = .error "status is null or undefined") ∧
    Task.create ⟨some (.inl ⟨"T-001"⟩), some (.inl ⟨"Test Task"⟩), none, some 0⟩ 0 =
      .error "status is null or undefined" ∧
    TaskService.createTask (.ok []) (fun t => .ok t) (.vStr "Buy milk") 0 =
      .error "status is null or undefined" := by
  have h2 : Task.create ⟨some (.inl ⟨"T-001"⟩), some (.inl ⟨"Test Task"⟩), none, some 0⟩ 0 =
      .error "status is null or undefined" := rfl
  have h3 : TaskService.createTask (.ok []) (fun t => .ok t) (.vStr "Buy milk") 0 =
      .error "status is null or undefined" := by decide
  refine ⟨?_, h2, h3⟩
  intro props now h1 ht hst
  obtain ⟨tid, ttl, st, d⟩ := props
  rcases tid with _ | tid
  · simp at h1
  · rcases ttl with _ | ttl
    · simp at ht
    · rcases st with _ | st
      · rfl
      · simp at hst

/-- Witness for C3: the quantified part applied at a concrete props record
with both identifier and title present and status omitted. -/
theorem claim3_witness :
    Task.create ⟨some (.inl ⟨"T-002"⟩), some (.inr "Walk dog"), none, some 7⟩ 7 =
      .error "status is null or undefined" :=
  claim3_status_guard_bug.1 ⟨some (.inl ⟨"T-002"⟩), some (.inr "Walk dog"), none, some 7⟩ 7
    (by simp) (by simp) rfl

/-- C6 counterexample: the original claim's invariant "sequence number in
[1, 999]" fails on the code — `TaskID.create` accepts "T-000" (it matches
`^T-\d{3}$`), and the constructed identifier's sequence number is 0,
not at least 1. -/
theorem claim6_counterexample :
    (TaskID.create (some "T-000")).isOk = true ∧
    TaskID.create (some "T-000") = .ok ⟨"T-000"⟩ ∧
    extractSequenceNumber "T-000" "T" = some 0 ∧ ¬ (1 : Nat) ≤ 0 :=
  ⟨by decide, by decide, by decide, by omega⟩

/-- C6 (amended): `Identifier.create(raw)` succeeds exactly when `raw` is a
non-null string whose trimmed form matches `^T-\d{3}$` (missing or wrong
prefix, too few or too many digits, non-digit characters and a missing
hyphen are all rejected; leading/trailing whitespace is accepted by
trimming), and every successfully constructed Identifier has a sequence
number in [0, 999] — the original lower bound 1 is falsified by "T-000"
(see the counterexample). -/
theorem claim6_identifier_amended (raw : Option String) :
    ((TaskID.create raw).isOk = true ↔
      ∃ s d1 d2 d3, raw = some s ∧ isDigitChar d1 = true ∧ isDigitChar d2 = true ∧
        isDigitChar d3 = true ∧ (jsTrim s).data = ['T', '-', d1, d2, d3]) ∧
    (∀ tid, TaskID.create raw = .ok tid →
      ∃ n, extractSequenceNumber tid.value "T" = some n ∧ n ≤ 999) := by
  constructor
  · cases raw with
    | none => simp [TaskID.create, Except.isOk, Except.toBool]
    | some s =>
      rw [TaskID_create_some_eq]
      by_cases h : createIdPatternTest "T" (jsTrim s)
      · simp only [h, if_true, Except.isOk, Except.toBool, true_iff]
        obtain ⟨ds, hds⟩ : ∃ ds, idPatternMatch "T" (jsTrim s) = some ds := by
          simpa [createIdPatternTest, Option.isSome_iff_exists] using h
        obtain ⟨d1, d2, d3, _, hd1, hd2, hd3, hdata⟩ := idPatternMatch_elim hds
        exact ⟨s, d1, d2, d3, rfl, hd1, hd2, hd3, by simpa using hdata⟩
      · rw [if_neg h]
        constructor
        · intro hfalse
          simp [Except.isOk, Except.toBool] at hfalse
        · rintro ⟨s2, d1, d2, d3, hs2, hd1, hd2, hd3, hdata⟩
          obtain rfl : s = s2 := Option.some.inj hs2
          refine absurd ?_ h
          have hm := idPatternMatch_intro "T" hd1 hd2 hd3 (s := jsTrim s) (by simpa using hdata)
          simp [createIdPatternTest, hm]
  · intro tid htid
    cases raw with
    | none => simp [TaskID.create] at htid
    | some s =>
      rw [TaskID_create_some_eq] at htid
      by_cases h : createIdPatternTest "T" (jsTrim s)
      · rw [if_pos h] at htid
        obtain rfl : (⟨jsTrim s⟩ : TaskID) = tid := Except.ok.inj htid
        obtain ⟨ds, hds⟩ : ∃ ds, idPatternMatch "T" (jsTrim s) = some ds := by
          simpa [createIdPatternTest, Option.isSome_iff_exists] using h
        obtain ⟨d1, d2, d3, rfl, hd1, hd2, hd3, hdata⟩ := idPatternMatch_elim hds
        refine ⟨parseIntDigits [d1, d2, d3], ?_, parseIntDigits_le_999 hd1 hd2 hd3⟩
        simp [extractSequenceNumber, hds]
      · rw [if_neg h] at htid
        simp at htid

/-- Witness for C6: the implication part applied at the whitespace-padded
input " T-042 ", whose trimmed form is accepted. -/
theorem claim6_witness :
    ∃ n, extractSequenceNumber (TaskID.mk "T-042").value "T" = some n ∧ n ≤ 999 :=
  (claim6_identifier_amended (some " T-042 ")).2 ⟨"T-042"⟩ (by decide)

theorem toDomain_some_unfold (r : RawTask) (now : Int) :
    TaskMapper.toDomain (some r) now =
      (match TaskID.create r.taskId with
       | .error _ => none
       | .ok tid =>
         match TaskTitle.create r.title with
         | .error _ => none
         | .ok ttl =>
           some ⟨tid, ttl, ⟨r.status.toBoolean⟩,
             (r.dateCreated.orElse fun _ => r.DateCreated).getD now⟩) := by
  cases h1 : TaskID.create r.taskId with
  | error e => simp [TaskMapper.toDomain, h1]
  | ok tid =>
    cases h2 : TaskTitle.create r.title with
    | error e => simp [TaskMapper.toDomain, h1, h2]
    | ok ttl =>
      simp [TaskMapper.toDomain, h1, h2, TaskStatus_create_some_eq, Task.create_all_some]

theorem TaskID_create_ok_iff (o : Option String) :
    (∃ tid, TaskID.create o = .ok tid) ↔
      ∃ s, o = some s ∧ createIdPatternTest "T" (jsTrim s) = true := by
  cases o with
  | none => simp [TaskID.create]
  | some s =>
    rw [TaskID_create_some_eq]
    by_cases h : createIdPatternTest "T" (jsTrim s) <;> simp [h]

theorem TaskTitle_create_ok_iff (o : Option String) :
    (∃ ttl, TaskTitle.create o = .ok ttl) ↔
      ∃ s, o = some s ∧ (jsTrim s).length ≠ 0 := by
  cases o with
  | none => simp [TaskTitle.create]
  | some s =>
    rw [TaskTitle_create_some_eq]
    by_cases h : (jsTrim s).length = 0 <;> simp [h]

/-- C4: for every valid Task `t` (identifier matching the pattern, trimmed
non-empty title — exactly what the validated factories produce),
`TaskMapper.toDomain (TaskMapper.toPersistence t)` succeeds and
reconstructs a Task equal to `t` in all fields. -/
theorem claim4_mapper_roundtrip (t : Task) (now : Int)
    (hid : createIdPatternTest "T" t.taskId.value = true)
    (htt : jsTrim t.title.value = t.title.value)
    (hne : t.title.value.length ≠ 0) :
    TaskMapper.toDomain (some (TaskMapper.toPersistence t)) now = some t := by
  obtain ⟨⟨idv⟩, ⟨tv⟩, ⟨sv⟩, d⟩ := t
  simp only at hid htt hne
  have hidtrim : jsTrim idv = idv := jsTrim_eq_self_of_test hid
  have h1 : TaskID.create (some idv) = .ok ⟨idv⟩ := by
    rw [TaskID_create_some_eq, hidtrim, if_pos hid]
  have h2 : TaskTitle.create (some tv) = .ok ⟨tv⟩ := by
    rw [TaskTitle_create_some_eq, htt, if_neg hne]
  simp [TaskMapper.toPersistence, toDomain_some_unfold, h1, h2, JSVal.toBoolean]

/-- Witness for C4: the round trip at a concrete valid task. -/
theorem claim4_witness :
    TaskMapper.toDomain
        (some (TaskMapper.toPersistence ⟨⟨"T-001"⟩, ⟨"Buy milk"⟩, ⟨false⟩, 42⟩)) 7 =
      some ⟨⟨"T-001"⟩, ⟨"Buy milk"⟩, ⟨false⟩, 42⟩ :=
  claim4_mapper_roundtrip ⟨⟨"T-001"⟩, ⟨"Buy milk"⟩, ⟨false⟩, 42⟩ 7
    (by decide) (by decide) (by decide)

/-- C5: the persistence-to-domain mapping is total (a function into
`Option`, never throwing): it returns `none` exactly when the record is
absent or the identifier or title fails its value-object validation; the
status never causes `none` because it is coerced with `Boolean(...)` before
validation, and the resulting task carries that coerced boolean; the
creation timestamp is read from `dateCreated`, else the legacy
`DateCreated`, else "now". -/
theorem claim5_toDomain_total :
    (∀ now : Int, TaskMapper.toDomain none now = none) ∧
    (∀ (r : RawTask) (now : Int),
      (TaskMapper.toDomain (some r) now = none ↔
        (¬ ∃ s, r.taskId = some s ∧ createIdPatternTest "T" (jsTrim s) = true) ∨
        (¬ ∃ s, r.title = some s ∧ (jsTrim s).length ≠ 0))) ∧
    (∀ (r : RawTask) (now : Int) (t : Task), TaskMapper.toDomain (some r) now = some t →
      t.status.value = r.status.toBoolean ∧
      (∀ d : Int, r.dateCreated = some d → t.DateCreated = d) ∧
      (r.dateCreated = none → ∀ d : Int, r.DateCreated = some d → t.DateCreated = d) ∧
      (r.dateCreated = none → r.DateCreated = none → t.DateCreated = now)) := by
  refine ⟨fun now => rfl, ?_, ?_⟩
  · intro r now
    rw [toDomain_some_unfold]
    cases h1 : TaskID.create r.taskId with
    | error e =>
      simp only [true_iff]
      left
      rintro ⟨s, hs, htest⟩
      obtain ⟨tid, htid⟩ := (TaskID_create_ok_iff r.taskId).mpr ⟨s, hs, htest⟩
      rw [h1] at htid
      cases htid
    | ok tid =>
      cases h2 : TaskTitle.create r.title with
      | error e =>
        simp only [true_iff]
        right
        rintro ⟨s, hs, hlen⟩
        obtain ⟨ttl, httl⟩ := (TaskTitle_create_ok_iff r.title).mpr ⟨s, hs, hlen⟩
        rw [h2] at httl
        cases httl
      | ok ttl =>
        simp only [reduceCtorEq, false_iff, not_or, not_not]
        constructor
        · exact of_not_not (by
            intro hno
            exact hno ((TaskID_create_ok_iff r.taskId).mp ⟨tid, h1⟩))
        · exact of_not_not (by
            intro hno
            exact hno ((TaskTitle_create_ok_iff r.title).mp ⟨ttl, h2⟩))
  · intro r now t h
    rw [toDomain_some_unfold] at h
    cases h1 : TaskID.create r.taskId with
    | error e => rw [h1] at h; cases h
    | ok tid =>
      rw [h1] at h
      cases h2 : TaskTitle.create r.title with
      | error e => rw [h2] at h; cases h
      | ok ttl =>
        rw [h2] at h
        obtain rfl : t = _ := (Option.some.inj h).symm
        refine ⟨rfl, ?_, ?_, ?_⟩
        · intro d hd; simp [hd]
        · intro hn d hd; simp [hn, hd]
        · intro hn1 hn2; simp [hn1, hn2]

/-- Witness for C5: the implication part applied to a record with a numeric
truthy status and only the legacy `DateCreated` field. -/
theorem claim5_witness :
    ((⟨⟨"T-001"⟩, ⟨"Milk"⟩, ⟨true⟩, 5⟩ : Task).status.value =
        (JSVal.vNum 3).toBoolean ∧
      (∀ d : Int, (none : Option Int) = some d →
        (⟨⟨"T-001"⟩, ⟨"Milk"⟩, ⟨true⟩, 5⟩ : Task).DateCreated = d) ∧
      ((none : Option Int) = none → ∀ d : Int, (some 5 : Option Int) = some d →
        (⟨⟨"T-001"⟩, ⟨"Milk"⟩, ⟨true⟩, 5⟩ : Task).DateCreated = d) ∧
      ((none : Option Int) = none → (some 5 : Option Int) = none →
        (⟨⟨"T-001"⟩, ⟨"Milk"⟩, ⟨true⟩, 5⟩ : Task).DateCreated = 99)) :=
  claim5_toDomain_total.2.2 ⟨some "T-001", some "Milk", .vNum 3, none, some 5⟩ 99
    ⟨⟨"T-001"⟩, ⟨"Milk"⟩, ⟨true⟩, 5⟩ (by decide)

theorem validateTitleStr_ok {s : String} (h : (jsTrim s).length ≠ 0) :
    TaskService.validateTitleStr s = .ok () := by
  unfold TaskService.validateTitleStr
  rw [if_neg h, TaskTitle_create_some_eq, if_neg h]

theorem validateTaskIdStr_ok {s : String} (h : createIdPatternTest "T" (jsTrim s) = true) :
    TaskService.validateTaskIdStr s = .ok () := by
  have hlen : (jsTrim s).length ≠ 0 := by
    obtain ⟨ds, hds⟩ : ∃ ds, idPatternMatch "T" (jsTrim s) = some ds := by
      simpa [createIdPatternTest, Option.isSome_iff_exists] using h
    obtain ⟨d1, d2, d3, _, _, _, _, hdata⟩ := idPatternMatch_elim hds
    simp [String.length, hdata]
  unfold TaskService.validateTaskIdStr
  rw [if_neg hlen, TaskID_create_some_eq, if_pos h]

theorem validateTaskIdStr_empty {s : String} (h : (jsTrim s).length = 0) :
    TaskService.validateTaskIdStr s = .error "taskId is required" := by
  unfold TaskService.validateTaskIdStr
  rw [if_pos h]

theorem validateTaskIdStr_nomatch {s : String} (hlen : (jsTrim s).length ≠ 0)
    (h : createIdPatternTest "T" (jsTrim s) = false) :
    TaskService.validateTaskIdStr s = .error "incidentTypeId must match pattern T-INC###" := by
  unfold TaskService.validateTaskIdStr
  rw [if_neg hlen, TaskID_create_some_eq, if_neg (by simp [h])]

/-- C7: every service operation returns a success/failure result and never
lets a repository exception escape (structurally, each operation is a
total function into the `Except String` result type); when a reached
repository call rejects with an `Error`, the operation returns a failure
carrying that Error's message, and for a non-Error thrown shape it returns
the operation-specific generic message. -/
theorem claim7_exception_conversion :
    (∀ m : String, TaskService.listTasks (.error (.errObj m)) = .error m) ∧
    (TaskService.listTasks (.error .nonError) = .error "Error listing tasks") ∧
    (∀ (m : String) (sv : Task → Except Thrown Task) (now : Int) (s : String),
      (jsTrim s).length ≠ 0 →
      TaskService.createTask (.error (.errObj m)) sv (.vStr s) now = .error m) ∧
    (∀ (sv : Task → Except Thrown Task) (now : Int) (s : String), (jsTrim s).length ≠ 0 →
      TaskService.createTask (.error .nonError) sv (.vStr s) now = .error "Error creating task") ∧
    (∀ (m s : String), createIdPatternTest "T" (jsTrim s) = true →
      TaskService.toggleTaskStatus (fun _ => .error (.errObj m)) (.vStr s) = .error m) ∧
    (∀ s : String, createIdPatternTest "T" (jsTrim s) = true →
      TaskService.toggleTaskStatus (fun _ => .error .nonError) (.vStr s) =
        .error "Error toggling task status") ∧
    (∀ (m s : String), createIdPatternTest "T" (jsTrim s) = true →
      TaskService.deleteTask (fun _ => .error (.errObj m)) (.vStr s) = .error m) ∧
    (∀ s : String, createIdPatternTest "T" (jsTrim s) = true →
      TaskService.deleteTask (fun _ => .error .nonError) (.vStr s) =
        .error "Error deleting task") := by
  have hbody : ∀ (e : Thrown) (sv : Task → Except Thrown Task) (now : Int) (s : String),
      (jsTrim s).length ≠ 0 →
      TaskService.createTaskBodyStr (.error e) sv s now = .error e := by
    intro e sv now s h
    unfold TaskService.createTaskBodyStr
    rw [validateTitleStr_ok h, TaskTitle_create_some_eq, if_neg h]
    rfl
  refine ⟨fun m => rfl, rfl, ?_, ?_, ?_, ?_, ?_, ?_⟩
  · intro m sv now s h
    simp [TaskService.createTask, hbody (.errObj m) sv now s h, tryCatch]
  · intro sv now s h
    simp [TaskService.createTask, hbody .nonError sv now s h, tryCatch]
  · intro m s h
    simp [TaskService.toggleTaskStatus, validateTaskIdStr_ok h, tryCatch]
  · intro s h
    simp [TaskService.toggleTaskStatus, validateTaskIdStr_ok h, tryCatch]
  · intro m s h
    simp [TaskService.deleteTask, validateTaskIdStr_ok h, tryCatch]
  · intro s h
    simp [TaskService.deleteTask, validateTaskIdStr_ok h, tryCatch]

/-- Witness for C7: concrete instances — a rejecting repository under
`createTask` with a valid title, and under `toggleTaskStatus` /
`deleteTask` with a valid identifier. -/
theorem claim7_witness :
    TaskService.createTask (.error (.errObj "db down")) (fun t => .ok t)
        (.vStr "Buy milk") 0 = .error "db down" ∧
    TaskService.toggleTaskStatus (fun _ => .error .nonError) (.vStr "T-001") =
      .error "Error toggling task status" ∧
    TaskService.deleteTask (fun _ => .error (.errObj "boom")) (.vStr "T-001") =
      .error "boom" :=
  ⟨claim7_exception_conversion.2.2.1 "db down" (fun t => .ok t) 0 "Buy milk" (by decide),
   claim7_exception_conversion.2.2.2.2.2.1 "T-001" (by decide),
   claim7_exception_conversion.2.2.2.2.2.2.1 "boom" "T-001" (by decide)⟩

/-- C8: `toggleTaskStatus` and `deleteTask` validate the id — non-string,
empty-after-trim, and pattern-mismatching inputs each produce a validation
failure whose result is the same for every repository behaviour (the
repository is never consulted); when validation passes they fail with
"Task not found" exactly when the repository reports no matching record
(`null` from toggle, `false`/zero deletions from delete), `deleteTask`
returning success with value `true` otherwise and `toggleTaskStatus`
returning the updated DTO. -/
theorem claim8_id_validation :
    (∀ v : JSVal, (∀ s : String, v ≠ .vStr s) →
      ∀ (tg : String → Except Thrown (Option Task)) (dl : String → Except Thrown Bool),
        TaskService.toggleTaskStatus tg v = .error "taskId must be a string" ∧
        TaskService.deleteTask dl v = .error "taskId must be a string") ∧
    (∀ s : String, (jsTrim s).length = 0 →
      ∀ (tg : String → Except Thrown (Option Task)) (dl : String → Except Thrown Bool),
        TaskService.toggleTaskStatus tg (.vStr s) = .error "taskId is required" ∧
        TaskService.deleteTask dl (.vStr s) = .error "taskId is required") ∧
    (∀ s : String, (jsTrim s).length ≠ 0 → createIdPatternTest "T" (jsTrim s) = false →
      ∀ (tg : String → Except Thrown (Option Task)) (dl : String → Except Thrown Bool),
        TaskService.toggleTaskStatus tg (.vStr s) =
          .error "incidentTypeId must match pattern T-INC###" ∧
        TaskService.deleteTask dl (.vStr s) =
          .error "incidentTypeId must match pattern T-INC###") ∧
    (∀ s : String, createIdPatternTest "T" (jsTrim s) = true →
      ∀ tg : String → Except Thrown (Option Task), tg s = .ok none →
        TaskService.toggleTaskStatus tg (.vStr s) = .error "Task not found") ∧
    (∀ s : String, createIdPatternTest "T" (jsTrim s) = true →
      ∀ (tg : String → Except Thrown (Option Task)) (t : Task), tg s = .ok (some t) →
        TaskService.toggleTaskStatus tg (.vStr s) = .ok (TaskMapper.toDTO t)) ∧
    (∀ s : String, createIdPatternTest "T" (jsTrim s) = true →
      ∀ dl : String → Except Thrown Bool, dl s = .ok false →
        TaskService.deleteTask dl (.vStr s) = .error "Task not found") ∧
    (∀ s : String, createIdPatternTest "T" (jsTrim s) = true →
      ∀ dl : String → Except Thrown Bool, dl s = .ok true →
        TaskService.deleteTask dl (.vStr s) = .ok true) := by
  refine ⟨?_, ?_, ?_, ?_, ?_, ?_, ?_⟩
  · intro v hv tg dl
    cases v with
    | vStr s => exact absurd rfl (hv s)
    | vUndefined => exact ⟨rfl, rfl⟩
    | vNull => exact ⟨rfl, rfl⟩
    | vBool b => exact ⟨rfl, rfl⟩
    | vNum n => exact ⟨rfl, rfl⟩
  · intro s h tg dl
    constructor
    · simp [TaskService.toggleTaskStatus, validateTaskIdStr_empty h, tryCatch]
    · simp [TaskService.deleteTask, validateTaskIdStr_empty h, tryCatch]
  · intro s hlen h tg dl
    constructor
    · simp [TaskService.toggleTaskStatus, validateTaskIdStr_nomatch hlen h, tryCatch]
    · simp [TaskService.deleteTask, validateTaskIdStr_nomatch hlen h, tryCatch]
  · intro s h tg htg
    simp [TaskService.toggleTaskStatus, validateTaskIdStr_ok h, htg, tryCatch]
  · intro s h tg t htg
    simp [TaskService.toggleTaskStatus, validateTaskIdStr_ok h, htg, tryCatch]
  · intro s h dl hdl
    simp [TaskService.deleteTask, validateTaskIdStr_ok h, hdl, tryCatch]
  · intro s h dl hdl
    simp [TaskService.deleteTask, validateTaskIdStr_ok h, hdl, tryCatch]

/-- Witness for C8: concrete instances — the invalid-format id "INVALID"
fails validation identically for two different repository behaviours, and
a valid id over an empty repository answer yields "Task not found". -/
theorem claim8_witness :
    (TaskService.toggleTaskStatus (fun _ => .ok none) (.vStr "INVALID") =
        .error "incidentTypeId must match pattern T-INC###" ∧
      TaskService.deleteTask (fun _ => .ok true) (.vStr "INVALID") =
        .error "incidentTypeId must match pattern T-INC###") ∧
    TaskService.toggleTaskStatus (fun _ => .ok none) (.vStr "T-999") =
      .error "Task not found" ∧
    TaskService.deleteTask (fun _ => .ok true) (.vStr "T-042") = .ok true :=
  ⟨claim8_id_validation.2.2.1 "INVALID" (by decide) (by decide)
      (fun _ => .ok none) (fun _ => .ok true),
   claim8_id_validation.2.2.2.1 "T-999" (by decide) (fun _ => .ok none) rfl,
   claim8_id_validation.2.2.2.2.2.2 "T-042" (by decide) (fun _ => .ok true) rfl⟩

/-- C9: `toggleTaskStatus` and `deleteTask` validate against the trimmed
id but forward the original untrimmed string to the repository lookup:
for an input carrying whitespace around a stored identifier, validation
succeeds, yet the exact-match repository query finds nothing (every stored
identifier matches the whitespace-free pattern), so both operations fail
with "Task not found" although the task exists. -/
theorem claim9_untrimmed_lookup (id : String) (docs : List RawTask) (now : Int)
    (hws : jsTrim id ≠ id)
    (hmatch : createIdPatternTest "T" (jsTrim id) = true)
    (hstore : ∀ r ∈ docs, ∀ s : String, r.taskId = some s → createIdPatternTest "T" s = true)
    (hexists : ∃ r ∈ docs, r.taskId = some (jsTrim id)) :
    TaskService.validateTaskIdStr id = .ok () ∧
    TaskService.toggleTaskStatus (fun q => .ok (TaskRepository.toggleStatus q docs now))
      (.vStr id) = .error "Task not found" ∧
    TaskService.deleteTask (fun q => .ok (TaskRepository.delete q docs)) (.vStr id) =
      .error "Task not found" := by
  have hval := validateTaskIdStr_ok hmatch
  have hnofind : ∀ r ∈ docs, ¬ ((r.taskId == some id) = true) := by
    intro r hr
    cases htid : r.taskId with
    | none => simp
    | some s2 =>
      have hts := hstore r hr s2 htid
      have hfix : jsTrim s2 = s2 := jsTrim_eq_self_of_test hts
      simp only [beq_iff_eq, Option.some.injEq]
      rintro rfl
      exact hws hfix
  have hfind : TaskRepository.findOneDoc id docs = none := by
    unfold TaskRepository.findOneDoc
    exact List.find?_eq_none.mpr hnofind
  have htoggle : TaskRepository.toggleStatus id docs now = none := by
    unfold TaskRepository.toggleStatus
    rw [hfind]
  have hdel : TaskRepository.delete id docs = false := by
    unfold TaskRepository.delete
    simp only [List.any_eq_false]
    exact hnofind
  refine ⟨hval, ?_, ?_⟩
  · simp [TaskService.toggleTaskStatus, hval, htoggle, tryCatch]
  · simp [TaskService.deleteTask, hval, hdel, tryCatch]

/-- Witness for C9: the input " T-001" (leading space) against a store
holding exactly `T-001` — validation passes, both operations answer
"Task not found". -/
theorem claim9_witness :
    TaskService.validateTaskIdStr " T-001" = .ok () ∧
    TaskService.toggleTaskStatus
      (fun q => .ok (TaskRepository.toggleStatus q
        [⟨some "T-001", some "Buy milk", .vBool false, some 0, none⟩] 9))
      (.vStr " T-001") = .error "Task not found" ∧
    TaskService.deleteTask
      (fun q => .ok (TaskRepository.delete q
        [⟨some "T-001", some "Buy milk", .vBool false, some 0, none⟩]))
      (.vStr " T-001") = .error "Task not found" :=
  claim9_untrimmed_lookup " T-001"
    [⟨some "T-001", some "Buy milk", .vBool false, some 0, none⟩] 9
    (by decide) (by decide) (by decide) (by decide)

/-- C10: `listTasks` silently omits malformed persisted records: `findAll`
keeps exactly the documents the mapper can turn into a valid Task, and
`listTasks` returns success with their DTOs — an all-invalid or empty
store yields a successful empty list, never an error. -/
theorem claim10_listTasks_filters :
    (∀ (docs : List RawTask) (now : Int),
      TaskService.listTasks (.ok (TaskRepository.findAll docs now)) =
        .ok (docs.filterMap fun d => (TaskMapper.toDomain (some d) now).map TaskMapper.toDTO)) ∧
    (∀ (docs : List RawTask) (now : Int),
      (∀ d ∈ docs, TaskMapper.toDomain (some d) now = none) →
      TaskService.listTasks (.ok (TaskRepository.findAll docs now)) = .ok []) ∧
    (∀ now : Int, TaskService.listTasks (.ok (TaskRepository.findAll [] now)) = .ok []) := by
  have hmain : ∀ (docs : List RawTask) (now : Int),
      TaskService.listTasks (.ok (TaskRepository.findAll docs now)) =
        .ok (docs.filterMap fun d => (TaskMapper.toDomain (some d) now).map TaskMapper.toDTO) := by
    intro docs now
    simp [TaskService.listTasks, tryCatch, TaskRepository.findAll, List.filterMap_map,
      List.map_filterMap]
  refine ⟨hmain, ?_, fun now => rfl⟩
  intro docs now h
  rw [hmain]
  have hnil : (docs.filterMap fun d => (TaskMapper.toDomain (some d) now).map TaskMapper.toDTO)
      = [] := by
    rw [List.filterMap_eq_nil_iff]
    intro d hd
    simp [h d hd]
  rw [hnil]

/-- Witness for C10: an all-invalid two-record store (bad identifier /
missing fields) yields a successful empty list. -/
theorem claim10_witness :
    TaskService.listTasks (.ok (TaskRepository.findAll
      [⟨some "BAD", some "x", .vBool true, none, none⟩,
       ⟨none, none, .vNull, none, none⟩] 3)) = .ok [] :=
  claim10_listTasks_filters.2.1
    [⟨some "BAD", some "x", .vBool true, none, none⟩, ⟨none, none, .vNull, none, none⟩] 3
    (by decide)

end TaskApp
